import Mathlib

/-!
Shallow embedding of `tygenie/opsgenie.py`: the ApiLog activity logger, the
OpsGenie API facade with its generic invoker `api_call`, and the Query
pagination/filter engine.  Python dicts are modelled as association lists with
Python assignment/update semantics; configuration (`ty_config`) is an explicit
record passed to each operation, mirroring the read-through accesses in the
source; exceptions are modelled with an explicit `Res` result type.
-/

namespace Tygenie

/-- Python values that flow through the parameter dictionaries of
`opsgenie.py`: ints, strings, booleans, the opaque `pendulum.now()` date,
the `AlertActionPayload(user, source, note)` body, the
`AddTagsToAlertPayload(user, source, note, tags)` body, and a raw tag list. -/
inductive Value where
  | vInt (n : Int)
  | vStr (s : String)
  | vBool (b : Bool)
  | vDate
  | vBody (user source note : String)
  | vTagBody (user source note : String) (tags : List String)
  | vTags (tags : List String)
  deriving DecidableEq, Repr

/-- A Python `dict` keyed by strings, as an association list in insertion
order (Python dicts preserve insertion order). -/
abbrev Dict := List (String × Value)

/-- `d.get(key)` / `d[key]` lookup: first (unique) binding for the key. -/
def Dict.get? : Dict → String → Option Value
  | [], _ => none
  | (k, v) :: rest, key => if k = key then some v else Dict.get? rest key

/-- Python `d[key] = val`: replace the existing binding in place (keeping its
position) or append a new binding at the end. -/
def Dict.set : Dict → String → Value → Dict
  | [], key, val => [(key, val)]
  | (k, v) :: rest, key, val =>
      if k = key then (k, val) :: rest else (k, v) :: Dict.set rest key val

/-- Python `a | b` (also `a.update(b)`): every binding of `b` is assigned
into `a`, so keys of `b` win on collision. -/
def Dict.union (a b : Dict) : Dict :=
  b.foldl (fun acc kv => Dict.set acc kv.1 kv.2) a

/-- The `tygenie.log` configuration section: the optional `enable` flag and
the optional `file` path. -/
structure LogConfig where
  enable : Option Bool
  file : Option String
  deriving DecidableEq, Repr

/-- The slice of `ty_config.tygenie` read by `opsgenie.py`: the optional
`log` section, the optional `alerts.limit` value, the optional
`default_filter` name, and the `filters` table mapping a filter name to the
optional `filter` query string of its definition dict. -/
structure TyConfig where
  logCfg : Option LogConfig
  alertsLimit : Option Int
  default_filter : Option String
  filters : List (String × Option String)
  deriving DecidableEq, Repr

/-- `ty_config.tygenie.get("filters", {}).get(filter_name, None)` lookup in
the filter table. -/
def Filters.find : List (String × Option String) → String → Option (Option String)
  | [], _ => none
  | (k, v) :: rest, key => if k = key then some v else Filters.find rest key

/-- Observable effect of one `ApiLog(message)` call: nothing, a line written
to the textual diagnostic sink and appended to the log file, or (when the
file write raises) the line on the sink followed by the degraded
`Unable to log in file` sink line. -/
inductive LogAction where
  | noop
  | sinkAndFile (line filePath : String)
  | sinkOnly (line : String)
  deriving DecidableEq, Repr

/-- Embedding of `ApiLog` (opsgenie.py lines 42-60).  `fileWriteOk` models
whether the `open`/`write` of the log file raises; `timestamp` models
`pendulum.now()`.  The function is total: a file-write failure is caught and
degrades to a sink-only action, so `ApiLog` itself never raises. -/
def ApiLog (cfg : TyConfig) (fileWriteOk : Bool) (timestamp message : String) : LogAction :=
  if message = "" then .noop
  else
    -- log_config = ty_config.tygenie.get("log", \x7b"enable": False\x7d)
    let lc := cfg.logCfg.getD { enable := some false, file := none }
    -- if "enable" in log_config and not log_config["enable"]: return
    if lc.enable = some false then .noop
    else
      let logline := "[" ++ timestamp ++ "] " ++ message
      if fileWriteOk then .sinkAndFile logline (lc.file.getD "/tmp/tygenie.log")
      else .sinkOnly logline

/-- Result of a Python expression that either produces a value or raises an
exception carrying a message. -/
inductive Res (α : Type) where
  | ok (a : α)
  | exn (msg : String)
  deriving DecidableEq, Repr

/-- `r.isOk` means the computation returned without raising. -/
def Res.isOk {α : Type} : Res α → Prop
  | .ok _ => True
  | .exn _ => False

instance {α : Type} (r : Res α) : Decidable r.isOk := by
  cases r <;> simp [Res.isOk] <;> infer_instance

/-- Behaviour of the detailed response object returned by a resource call.
The response comes from the excluded generated-bindings layer, so each
attribute read performed by `api_call` (`status_code`, `content`, `parsed`)
is modelled as an operation that may itself raise. -/
structure RespBehavior where
  statusCode : Res Int
  content : Res String
  parsed : Res Value
  deriving DecidableEq, Repr

/-- A remote-operation handle: `resource.asyncio_detailed(client, **kwargs)`
either raises or yields a response object. -/
abbrev Resource := Dict → Res RespBehavior

/-- Value returned by `api_call` to its caller: the parsed payload on
success, `None` (the variable `response` still unassigned) when the call
itself raised, or the raw response object (the variable `response` after
assignment) when a later step raised. -/
inductive ApiResult where
  | value (v : Value)
  | noneRes
  | rawResponse (r : RespBehavior)
  deriving DecidableEq, Repr

/-- Embedding of `OpsGenie.api_call` (opsgenie.py lines 147-161).
`response = None`; inside `try`: log the call, perform it, log
`response.status_code`, log `response.content`, log completion, return
`response.parsed`; `except` logs the message and returns `response`. -/
def api_call (resource : Resource) (kwargs : Dict) : ApiResult :=
  match resource kwargs with
  | .exn _ => .noneRes
  | .ok resp =>
    match resp.statusCode with
    | .exn _ => .rawResponse resp
    | .ok _ =>
      match resp.content with
      | .exn _ => .rawResponse resp
      | .ok _ =>
        match resp.parsed with
        | .exn _ => .rawResponse resp
        | .ok v => .value v

/-- The identity fields of the `OpsGenie` facade: `username` and the tool
version used to build `self.source = "TyGenie {}".format(c.VERSION)`. -/
structure OpsGenie where
  username : String
  version : String
  deriving DecidableEq, Repr

/-- `self.source`, computed once at construction. -/
def OpsGenie.source (og : OpsGenie) : String := "TyGenie " ++ og.version

/-- `OpsGenie.get_account_info`. -/
def OpsGenie.get_account_info (_og : OpsGenie) (res : Resource) : Res ApiResult :=
  .ok (api_call res [])

/-- `OpsGenie.count_alerts`: params = single `query` entry defaulting to
the empty string. -/
def OpsGenie.count_alerts (_og : OpsGenie) (res : Resource) (parameters : Dict) :
    Res ApiResult :=
  .ok (api_call res [("query", (Dict.get? parameters "query").getD (.vStr ""))])

/-- `OpsGenie.list_alerts`: default params updated with the caller's. -/
def OpsGenie.list_alerts (_og : OpsGenie) (res : Resource) (limit : Int)
    (parameters : Dict) : Res ApiResult :=
  .ok (api_call res (Dict.union
    [("limit", .vInt limit), ("sort", .vStr "updatedAt"),
     ("order", .vStr "desc"), ("query", .vStr "")] parameters))

/-- `OpsGenie.get_alert`: parameters passed through. -/
def OpsGenie.get_alert (_og : OpsGenie) (res : Resource) (parameters : Dict) :
    Res ApiResult :=
  .ok (api_call res parameters)

/-- `OpsGenie.get_alert_notes`: parameters passed through. -/
def OpsGenie.get_alert_notes (_og : OpsGenie) (res : Resource) (parameters : Dict) :
    Res ApiResult :=
  .ok (api_call res parameters)

/-- Parameter shaping shared by `ack_alert`, `add_note` and `unack_alert`:
`parameters["body"] = AlertActionPayload(user, source, note)`, an in-place
assignment into the caller's dict. -/
def OpsGenie.action_shape (og : OpsGenie) (note : String) (parameters : Dict) : Dict :=
  Dict.set parameters "body" (.vBody og.username og.source note)

/-- Parameter shaping of `close_alert`: identical except that `source` is
recomputed as `"TyGenie {}".format(c.VERSION)` instead of reading
`self.source`. -/
def OpsGenie.close_shape (og : OpsGenie) (note : String) (parameters : Dict) : Dict :=
  Dict.set parameters "body" (.vBody og.username ("TyGenie " ++ og.version) note)

/-- Parameter shaping of `tag_alert`:
`parameters["body"] = AddTagsToAlertPayload(user, source, note, tags)`. -/
def OpsGenie.tag_shape (og : OpsGenie) (note : String) (tags : List String)
    (parameters : Dict) : Dict :=
  Dict.set parameters "body" (.vTagBody og.username og.source note tags)

/-- `OpsGenie.ack_alert`. -/
def OpsGenie.ack_alert (og : OpsGenie) (res : Resource) (parameters : Dict)
    (note : String) : Res ApiResult :=
  .ok (api_call res (og.action_shape note parameters))

/-- `OpsGenie.add_note` (the extra ApiLog call has no effect on the result). -/
def OpsGenie.add_note (og : OpsGenie) (res : Resource) (parameters : Dict)
    (note : String) : Res ApiResult :=
  .ok (api_call res (og.action_shape note parameters))

/-- `OpsGenie.unack_alert`. -/
def OpsGenie.unack_alert (og : OpsGenie) (res : Resource) (parameters : Dict)
    (note : String) : Res ApiResult :=
  .ok (api_call res (og.action_shape note parameters))

/-- `OpsGenie.close_alert`. -/
def OpsGenie.close_alert (og : OpsGenie) (res : Resource) (parameters : Dict)
    (note : String) : Res ApiResult :=
  .ok (api_call res (og.close_shape note parameters))

/-- `OpsGenie.tag_alert`. -/
def OpsGenie.tag_alert (og : OpsGenie) (res : Resource) (parameters : Dict)
    (tags : List String) (note : String) : Res ApiResult :=
  .ok (api_call res (og.tag_shape note tags parameters))

/-- `OpsGenie.remove_tag_alert`: builds a flat params mapping containing
`parameters["identifier"]` — a subscript that raises `KeyError` when the
key is absent, before `api_call` (and its try/except) is ever reached. -/
def OpsGenie.remove_tag_alert (og : OpsGenie) (res : Resource) (parameters : Dict)
    (tags : List String) (note : String) : Res ApiResult :=
  match Dict.get? parameters "identifier" with
  | none => .exn "KeyError: identifier"
  | some ident =>
    .ok (api_call res
      [("user", .vStr og.username), ("source", .vStr og.source),
       ("tags", .vTags tags), ("note", .vStr note), ("identifier", ident)])

/-- `OpsGenie.list_schedules`. -/
def OpsGenie.list_schedules (_og : OpsGenie) (res : Resource) : Res ApiResult :=
  .ok (api_call res [])

/-- `OpsGenie.whois_on_call`: default params merged under the caller's. -/
def OpsGenie.whois_on_call (_og : OpsGenie) (res : Resource) (parameters : Dict) :
    Res ApiResult :=
  .ok (api_call res (Dict.union [("flat", .vBool true), ("date", .vDate)] parameters))

/-- State of the `Query` pagination/filter engine.  The `_limit` backing
field is omitted: the `limit` property getter overwrites it from live
configuration on every access, so every read goes through `Query.limit`. -/
structure Query where
  sort : String
  order : String
  query : String
  offset : Int
  current_filter : Option String
  current : Dict
  deriving DecidableEq, Repr

/-- The `Query.limit` property getter:
`int(ty_config.tygenie["alerts"].get("limit", 22))`, re-read from live
configuration on every access. -/
def Query.limit (cfg : TyConfig) : Int :=
  cfg.alertsLimit.getD 22

/-- Embedding of `Query._get_query` (opsgenie.py lines 185-203): resolve the
filter name (argument, else sticky `current_filter`, else configured
default), look it up in the filter table (missing name logs a diagnostic and
keeps the empty query), record the attempted name in `current_filter`, and
return the query string. -/
def Query._get_query (cfg : TyConfig) (q : Query) (filter_name : Option String) :
    Query × String :=
  let fn : Option String :=
    match filter_name with
    | some f => some f
    | none =>
      match q.current_filter with
      | some f => some f
      | none => cfg.default_filter
  let query : String :=
    match fn with
    | none => ""
    | some n =>
      match Filters.find cfg.filters n with
      | none => ""
      | some custFilter => custFilter.getD ""
  ({ q with current_filter := fn }, query)

/-- Embedding of `Query.get` (opsgenie.py lines 205-214): resolve the query,
build the params dict from current state, and return it merged under the
caller's `parameters` (caller keys win).  Note: `self.current` is not
assigned here. -/
def Query.get (cfg : TyConfig) (q : Query) (filter_name : Option String)
    (parameters : Dict) : Query × Dict :=
  let (q1, query) := Query._get_query cfg q filter_name
  let params : Dict :=
    [("limit", .vInt (Query.limit cfg)), ("sort", .vStr q1.sort),
     ("order", .vStr q1.order), ("offset", .vInt q1.offset),
     ("query", .vStr query)]
  (q1, Dict.union params parameters)

/-- The field values `Query.__init__` assigns before calling `self.get()`. -/
def Query.mk0 : Query :=
  { sort := "createdAt", order := "desc", query := "status:open",
    offset := 0, current_filter := none, current := [] }

/-- Embedding of `Query.__init__`: set the initial fields, then
`self.current = self.get()`. -/
def Query.init (cfg : TyConfig) : Query :=
  let r := Query.get cfg Query.mk0 none []
  { r.1 with current := r.2 }

/-- Embedding of `Query.current_page`: `int(self.offset / self.limit) + 1`.
Python float division truncates toward zero under `int(...)` and raises
`ZeroDivisionError` when the limit is zero. -/
def Query.current_page (cfg : TyConfig) (q : Query) : Res Int :=
  if Query.limit cfg = 0 then .exn "ZeroDivisionError"
  else .ok (Int.tdiv q.offset (Query.limit cfg) + 1)

/-- Embedding of `Query.get_next`: `self.offset += self.limit`, then
`self.get(parameters={"offset": self.offset})`. -/
def Query.get_next (cfg : TyConfig) (q : Query) : Query × Dict :=
  let q1 := { q with offset := q.offset + Query.limit cfg }
  Query.get cfg q1 none [("offset", .vInt q1.offset)]

/-- Embedding of `Query.get_previous`: `self.offset -= self.limit` (no
clamping of the stored field), then
`self.get(parameters={"offset": max(0, self.offset)})`. -/
def Query.get_previous (cfg : TyConfig) (q : Query) : Query × Dict :=
  let q1 := { q with offset := q.offset - Query.limit cfg }
  Query.get cfg q1 none [("offset", .vInt (max 0 q1.offset))]

/-- `n` successive `get_next` calls, keeping only the evolving state. -/
def Query.iterNext (cfg : TyConfig) : Nat → Query → Query
  | 0, q => q
  | n + 1, q => Query.iterNext cfg n (Query.get_next cfg q).1

/-- `r.isExn` means the computation raised. -/
def Res.isExn {α : Type} : Res α → Prop
  | .ok _ => False
  | .exn _ => True

instance {α : Type} (r : Res α) : Decidable r.isExn := by
  cases r <;> simp [Res.isExn] <;> infer_instance

/-- Python evaluates a `parameters: dict = \x7b\x7d` default argument once, at
function definition time; every call that omits the argument receives — and
mutates — that same dict.  This folds the in-place `action_shape` mutation
of `ack_alert` over a sequence of omitted-argument calls, starting from the
empty dict created at definition time. -/
def OpsGenie.ackDefaultAfter (og : OpsGenie) (notes : List String) : Dict :=
  notes.foldl (fun d note => og.action_shape note d) []

/-- An empty configuration: no log section, no alerts limit, no default
filter, no filters. -/
def cfg0 : TyConfig :=
  { logCfg := none, alertsLimit := none, default_filter := none, filters := [] }

/-- A configuration whose `alerts.limit` is explicitly 0. -/
def cfgZero : TyConfig :=
  { logCfg := none, alertsLimit := some 0, default_filter := none, filters := [] }

/-- A configuration whose `log` section exists but has no `enable` key. -/
def cfgLogNoEnable : TyConfig :=
  { logCfg := some { enable := none, file := none }, alertsLimit := none,
    default_filter := none, filters := [] }

/-- A configuration with logging enabled and a configured log file. -/
def cfgLogOn : TyConfig :=
  { logCfg := some { enable := some true, file := some "/var/log/ty.log" },
    alertsLimit := none, default_filter := none, filters := [] }

/-- A concrete facade identity. -/
def og0 : OpsGenie := { username := "alice", version := "0.0.0" }

/-- A resource whose call and response attributes all succeed. -/
def res0 : Resource :=
  fun _ => .ok { statusCode := .ok 200, content := .ok "", parsed := .ok (.vStr "ok") }

/-- A response object whose `status_code` attribute read raises. -/
def resp1 : RespBehavior :=
  { statusCode := .exn "boom", content := .ok "", parsed := .ok (.vStr "ok") }

/-- A resource whose call succeeds but whose response raises on the
`status_code` read performed by the first post-call log line. -/
def resBad : Resource := fun _ => .ok resp1

theorem Dict.get?_set_self (d : Dict) (k : String) (v : Value) :
    Dict.get? (Dict.set d k v) k = some v := by
  induction d with
  | nil => simp [Dict.set, Dict.get?]
  | cons kv rest ih =>
    obtain ⟨k0, v0⟩ := kv
    by_cases h : k0 = k
    · subst h
      simp [Dict.set, Dict.get?]
    · simp [Dict.set, Dict.get?, h, ih]

theorem Dict.get?_set_ne (d : Dict) (k : String) (v : Value) (k' : String)
    (h : k' ≠ k) : Dict.get? (Dict.set d k v) k' = Dict.get? d k' := by
  induction d with
  | nil => simp [Dict.set, Dict.get?, Ne.symm h]
  | cons kv rest ih =>
    obtain ⟨k0, v0⟩ := kv
    by_cases hk : k0 = k
    · subst hk
      simp [Dict.set, Dict.get?, Ne.symm h]
    · simp [Dict.set, Dict.get?, hk, ih]

theorem Dict.get?_eq_none_of_not_mem (d : Dict) (k : String)
    (h : k ∉ d.map Prod.fst) : Dict.get? d k = none := by
  induction d with
  | nil => simp [Dict.get?]
  | cons kv rest ih =>
    obtain ⟨k0, v0⟩ := kv
    simp only [List.map_cons, List.mem_cons] at h
    push_neg at h
    simp [Dict.get?, Ne.symm h.1, ih h.2]

theorem Dict.get?_union (a b : Dict) (k : String)
    (hb : (b.map Prod.fst).Nodup) :
    Dict.get? (Dict.union a b) k = (Dict.get? b k).or (Dict.get? a k) := by
  induction b generalizing a with
  | nil => simp [Dict.union, Dict.get?, Option.or]
  | cons kv rest ih =>
    obtain ⟨k0, v0⟩ := kv
    simp only [List.map_cons, List.nodup_cons] at hb
    have step : Dict.union a ((k0, v0) :: rest) = Dict.union (Dict.set a k0 v0) rest := rfl
    rw [step, ih _ hb.2]
    by_cases h : k0 = k
    · subst h
      rw [Dict.get?_eq_none_of_not_mem rest k0 hb.1, Dict.get?_set_self]
      simp [Dict.get?, Option.or]
    · rw [Dict.get?_set_ne _ _ _ _ (Ne.symm h)]
      simp [Dict.get?, h]

/-- The parameter mapping built by `Query.get` is the computed params dict
with the caller's overrides assigned over it. -/
theorem Query.get_snd (cfg : TyConfig) (q : Query) (fn : Option String) (ps : Dict) :
    (Query.get cfg q fn ps).2 =
      Dict.union
        [("limit", Value.vInt (Query.limit cfg)), ("sort", Value.vStr q.sort),
         ("order", Value.vStr q.order), ("offset", Value.vInt q.offset),
         ("query", Value.vStr (Query._get_query cfg q fn).2)] ps := rfl

/-- `Query.get` leaves the stored offset unchanged. -/
theorem Query.get_offset (cfg : TyConfig) (q : Query) (fn : Option String) (ps : Dict) :
    (Query.get cfg q fn ps).1.offset = q.offset := rfl

/-- `Query.get_next` advances the stored offset by the live limit. -/
theorem Query.get_next_offset (cfg : TyConfig) (q : Query) :
    (Query.get_next cfg q).1.offset = q.offset + Query.limit cfg := rfl

/-- After `n` `get_next` calls the stored offset has advanced by `n` times
the (unchanged) limit. -/
theorem Query.iterNext_offset (cfg : TyConfig) (n : Nat) (q : Query) :
    (Query.iterNext cfg n q).offset = q.offset + (n : Int) * Query.limit cfg := by
  induction n generalizing q with
  | zero => simp [Query.iterNext]
  | succ m ih =>
    rw [Query.iterNext, ih, Query.get_next_offset]
    push_cast
    ring

/-- C1, counterexample to the claim as stated: starting from the freshly
constructed state (offset 0) with the default limit 22, a `get_previous`
call leaves the stored pagination offset at -22, which is negative — the
source decrements `self.offset` before clamping and only clamps the value
placed in the returned mapping. -/
theorem get_previous_stored_offset_negative :
    ¬ (0 ≤ (Query.get_previous cfg0 (Query.init cfg0)).1.offset) := by decide

/-- C1 (amended): `get_previous` does not clamp the stored offset (which may
go negative), but the `offset` entry of the parameter mapping it returns is
`max 0 (offset - limit)`, hence never negative. -/
theorem get_previous_returned_offset_clamped (cfg : TyConfig) (q : Query) :
    Dict.get? (Query.get_previous cfg q).2 "offset"
        = some (.vInt (max 0 (q.offset - Query.limit cfg))) ∧
      (0 : Int) ≤ max 0 (q.offset - Query.limit cfg) ∧
      (Query.get_previous cfg q).1.offset = q.offset - Query.limit cfg := by
  refine ⟨?_, le_max_left 0 _, rfl⟩
  rw [show Query.get_previous cfg q
      = Query.get cfg { q with offset := q.offset - Query.limit cfg } none
          [("offset", Value.vInt (max 0 (q.offset - Query.limit cfg)))] from rfl,
    Query.get_snd]
  rw [show Dict.union
        [("limit", Value.vInt (Query.limit cfg)),
         ("sort", Value.vStr ({ q with offset := q.offset - Query.limit cfg } : Query).sort),
         ("order", Value.vStr ({ q with offset := q.offset - Query.limit cfg } : Query).order),
         ("offset", Value.vInt ({ q with offset := q.offset - Query.limit cfg } : Query).offset),
         ("query", Value.vStr (Query._get_query cfg { q with offset := q.offset - Query.limit cfg } none).2)]
        [("offset", Value.vInt (max 0 (q.offset - Query.limit cfg)))]
      = Dict.set
        [("limit", Value.vInt (Query.limit cfg)),
         ("sort", Value.vStr ({ q with offset := q.offset - Query.limit cfg } : Query).sort),
         ("order", Value.vStr ({ q with offset := q.offset - Query.limit cfg } : Query).order),
         ("offset", Value.vInt ({ q with offset := q.offset - Query.limit cfg } : Query).offset),
         ("query", Value.vStr (Query._get_query cfg { q with offset := q.offset - Query.limit cfg } none).2)]
        "offset" (Value.vInt (max 0 (q.offset - Query.limit cfg))) from rfl]
  exact Dict.get?_set_self _ _ _

/-- C2, counterexample to the claim as stated: `remove_tag_alert` evaluates
`parameters["identifier"]` while shaping its flat params, before the
guarded invoker is reached, so a parameters mapping without `identifier`
makes the facade method raise `KeyError` to its caller. -/
theorem remove_tag_alert_raises_keyerror :
    OpsGenie.remove_tag_alert og0 res0 [] [] "" = .exn "KeyError: identifier" ∧
      ¬ (OpsGenie.remove_tag_alert og0 res0 [] [] "").isOk :=
  ⟨rfl, by decide⟩

/-- C2 (amended): every facade method other than `remove_tag_alert` returns
without raising, for every parameters mapping — including mappings without
an `identifier` key; `remove_tag_alert` requires `identifier` in its
parameters mapping, and with that key present it, too, never raises. -/
theorem facade_methods_no_raise (og : OpsGenie) (res : Resource) (parameters : Dict)
    (limit : Int) (tags : List String) (note : String) :
    (og.get_account_info res).isOk ∧ (og.count_alerts res parameters).isOk ∧
    (og.list_alerts res limit parameters).isOk ∧ (og.get_alert res parameters).isOk ∧
    (og.get_alert_notes res parameters).isOk ∧ (og.ack_alert res parameters note).isOk ∧
    (og.add_note res parameters note).isOk ∧ (og.unack_alert res parameters note).isOk ∧
    (og.close_alert res parameters note).isOk ∧
    (og.tag_alert res parameters tags note).isOk ∧
    (∀ ident, Dict.get? parameters "identifier" = some ident →
      (og.remove_tag_alert res parameters tags note).isOk) ∧
    (og.list_schedules res).isOk ∧ (og.whois_on_call res parameters).isOk := by
  refine ⟨trivial, trivial, trivial, trivial, trivial, trivial, trivial, trivial,
    trivial, trivial, fun ident hid => ?_, trivial, trivial⟩
  simp [OpsGenie.remove_tag_alert, hid, Res.isOk]

/-- C2 witness: on an identifier-less mapping the twelve other methods do
not raise (shown here for `ack_alert`), and with `identifier` present
`remove_tag_alert` does not raise either. -/
theorem facade_methods_no_raise_witness :
    (OpsGenie.ack_alert og0 res0 [] "").isOk ∧
      (OpsGenie.remove_tag_alert og0 res0 [("identifier", Value.vStr "a-1")] [] "").isOk :=
  ⟨(facade_methods_no_raise og0 res0 [] 0 [] "").2.2.2.2.2.1,
    (facade_methods_no_raise og0 res0 [("identifier", Value.vStr "a-1")] 0 [] "").2.2.2.2.2.2.2.2.2.2.1
      (Value.vStr "a-1") (by decide)⟩

/-- C3, counterexample to the claim as stated: when the call itself succeeds
but the `status_code` read in the first post-call log line raises, `api_call`
returns the already-assigned raw response object — a partial value — rather
than the absence result `None`. -/
theorem api_call_partial_value_on_late_exception :
    resBad [] = .ok resp1 ∧ resp1.statusCode.isExn ∧
      api_call resBad [] = .rawResponse resp1 ∧ api_call resBad [] ≠ .noneRes :=
  ⟨rfl, trivial, rfl, by decide⟩

/-- C3 (amended): `api_call` never propagates an exception; if the remote
call itself raises, the `response` variable is still `None` and `None` is
returned, but if a step after the call raises (status/content logging or
parsed extraction), the raw response object assigned by the call is
returned instead. -/
theorem api_call_fail_soft (res : Resource) (kwargs : Dict) :
    (∀ e, res kwargs = .exn e → api_call res kwargs = .noneRes) ∧
    (∀ resp, res kwargs = .ok resp →
      (resp.statusCode.isExn ∨ resp.content.isExn ∨ resp.parsed.isExn) →
        api_call res kwargs = .rawResponse resp) := by
  constructor
  · intro e he
    simp [api_call, he]
  · intro resp hresp hstep
    rcases hs : resp.statusCode with v | m
    · rcases hc : resp.content with v2 | m2
      · rcases hp : resp.parsed with v3 | m3
        · exfalso
          rcases hstep with h | h | h <;> simp [hs, hc, hp, Res.isExn] at h
        · simp [api_call, hresp, hs, hc, hp]
      · simp [api_call, hresp, hs, hc]
    · simp [api_call, hresp, hs]

/-- C3 witness: the fail-soft contract applied to the concrete resource
whose response raises on the `status_code` read. -/
theorem api_call_fail_soft_witness :
    api_call resBad [("limit", Value.vInt 1)] = .rawResponse resp1 :=
  (api_call_fail_soft resBad [("limit", Value.vInt 1)]).2 resp1 rfl (Or.inl trivial)

/-- C4, counterexample to the claim as stated: a configured `alerts.limit`
of 0 is returned as-is by the `limit` accessor (the built-in default 22
applies only when the key is absent), and `current_page` then divides by
zero. -/
theorem limit_zero_not_defaulted :
    Query.limit cfgZero = 0 ∧ Query.limit cfgZero ≠ 22 ∧
      Query.current_page cfgZero (Query.init cfgZero) = .exn "ZeroDivisionError" := by
  refine ⟨rfl, by decide, rfl⟩

/-- C4 (amended): the `limit` accessor yields the built-in default 22 only
when the configuration omits the `alerts.limit` key; a configured value —
including zero or a negative number — is returned unchanged, and
`current_page` is only division-safe when the resulting limit is nonzero. -/
theorem limit_defaults_only_when_absent (cfg : TyConfig) :
    (cfg.alertsLimit = none → Query.limit cfg = 22) ∧
    (∀ v : Int, cfg.alertsLimit = some v → Query.limit cfg = v) ∧
    (Query.limit cfg ≠ 0 → ∀ q : Query, (Query.current_page cfg q).isOk) := by
  refine ⟨fun h => by simp [Query.limit, h],
    fun v h => by simp [Query.limit, h],
    fun h q => by simp [Query.current_page, h, Res.isOk]⟩

/-- C4 witness: with the limit key absent the accessor yields 22 and
`current_page` succeeds; with a configured negative limit the accessor
passes the value through. -/
theorem limit_defaults_only_when_absent_witness :
    Query.limit cfg0 = 22 ∧ (Query.current_page cfg0 (Query.init cfg0)).isOk :=
  ⟨(limit_defaults_only_when_absent cfg0).1 rfl,
    (limit_defaults_only_when_absent cfg0).2.2 (by decide) (Query.init cfg0)⟩

/-- C5, counterexample to the claim as stated: calling `get` with an offset
override returns a mapping whose `offset` is 40, but the state's `current`
field still holds the mapping computed at construction (offset 0): `get`
does not cache its result. -/
theorem get_does_not_cache_current :
    (Query.get cfg0 (Query.init cfg0) none [("offset", Value.vInt 40)]).1.current
      ≠ (Query.get cfg0 (Query.init cfg0) none [("offset", Value.vInt 40)]).2 := by
  decide

/-- C5 (amended): `current` is written exactly once, by `__init__` (which
stores the mapping computed by its initial `get()` call); `Query.get` itself
leaves `current` unchanged on every call. -/
theorem current_written_only_at_init (cfg : TyConfig) (q : Query)
    (fn : Option String) (ps : Dict) :
    (Query.get cfg q fn ps).1.current = q.current ∧
      (Query.init cfg).current = (Query.get cfg Query.mk0 none []).2 :=
  ⟨rfl, rfl⟩

/-- C6: resolving filter `x` records `current_filter = x` even when `x` is
absent from the filter table (where the query degrades to the empty
string), and a subsequent parameterless resolution re-attempts the lookup
of `x` (possibly against a changed table) instead of reverting to the
configured default. -/
theorem sticky_filter (cfg cfg2 : TyConfig) (q : Query) (x : String) :
    ((Query._get_query cfg q (some x)).1.current_filter = some x) ∧
    ((Query._get_query cfg2 (Query._get_query cfg q (some x)).1 none).1.current_filter
      = some x) ∧
    (Filters.find cfg.filters x = none → (Query._get_query cfg q (some x)).2 = "") ∧
    (Filters.find cfg2.filters x = none →
      (Query._get_query cfg2 (Query._get_query cfg q (some x)).1 none).2 = "") := by
  refine ⟨rfl, ?_, fun h => ?_, fun h => ?_⟩
  · simp [Query._get_query]
  · simp [Query._get_query, h]
  · simp [Query._get_query, h]

/-- C6 witness: with an empty filter table, resolving the unknown filter
name records it as sticky and yields the empty query, in the first call and
in the parameterless call after it. -/
theorem sticky_filter_witness :
    ((Query._get_query cfg0 Query.mk0 (some "mine")).1.current_filter = some "mine") ∧
    ((Query._get_query cfg0 (Query._get_query cfg0 Query.mk0 (some "mine")).1 none).1.current_filter
      = some "mine") ∧
    ((Query._get_query cfg0 Query.mk0 (some "mine")).2 = "") ∧
    ((Query._get_query cfg0 (Query._get_query cfg0 Query.mk0 (some "mine")).1 none).2 = "") :=
  ⟨(sticky_filter cfg0 cfg0 Query.mk0 "mine").1,
   (sticky_filter cfg0 cfg0 Query.mk0 "mine").2.1,
   (sticky_filter cfg0 cfg0 Query.mk0 "mine").2.2.1 (by decide),
   (sticky_filter cfg0 cfg0 Query.mk0 "mine").2.2.2 (by decide)⟩

/-- C7: with a fixed nonzero positive limit, starting from the freshly
constructed state (offset 0), after `n` `get_next` calls `current_page`
returns `n + 1`. -/
theorem current_page_after_n_next (cfg : TyConfig) (n : Nat)
    (h : 0 < Query.limit cfg) :
    Query.current_page cfg (Query.iterNext cfg n (Query.init cfg))
      = .ok ((n : Int) + 1) := by
  have h0 : (Query.init cfg).offset = 0 := rfl
  have hoff := Query.iterNext_offset cfg n (Query.init cfg)
  rw [h0, zero_add] at hoff
  have hne : Query.limit cfg ≠ 0 := ne_of_gt h
  simp [Query.current_page, hne, hoff, Int.mul_tdiv_cancel _ hne]

/-- C7 witness: with the default limit 22, three `get_next` calls put the
engine on page 4. -/
theorem current_page_after_n_next_witness :
    0 < Query.limit cfg0 ∧
      Query.current_page cfg0 (Query.iterNext cfg0 3 (Query.init cfg0))
        = .ok (((3 : Nat) : Int) + 1) :=
  ⟨by decide, current_page_after_n_next cfg0 3 (by decide)⟩

/-- C8: every key of the overrides mapping appears in the mapping returned
by `Query.get` with the caller's value, dominating the engine-computed
entry for the same key. -/
theorem get_overrides_dominate (cfg : TyConfig) (q : Query) (fn : Option String)
    (overrides : Dict) (k : String) (v : Value)
    (hnd : (overrides.map Prod.fst).Nodup)
    (hk : Dict.get? overrides k = some v) :
    Dict.get? (Query.get cfg q fn overrides).2 k = some v := by
  rw [Query.get_snd, Dict.get?_union _ _ _ hnd, hk]
  rfl

/-- C8 witness: an explicit `offset: 40` override dominates the stored
offset 0 in the returned mapping. -/
theorem get_overrides_dominate_witness :
    Dict.get? (Query.get cfg0 (Query.init cfg0) none [("offset", Value.vInt 40)]).2 "offset"
      = some (Value.vInt 40) :=
  get_overrides_dominate cfg0 (Query.init cfg0) none [("offset", Value.vInt 40)]
    "offset" (Value.vInt 40) (by decide) (by decide)

/-- C9, counterexample to the claim as stated: when the `log` section exists
but carries no `enable` key, the flag is not treated as false — `ApiLog`
writes the line, because the guard only fires when `enable` is present and
falsy. -/
theorem apilog_logs_without_enable_key :
    ApiLog cfgLogNoEnable true "t" "m" = .sinkAndFile "[t] m" "/tmp/tygenie.log" ∧
      ApiLog cfgLogNoEnable true "t" "m" ≠ .noop := by
  refine ⟨by decide, by decide⟩

/-- C9 (amended): `ApiLog` is a no-op on the empty message and whenever the
`enable` flag is present and false; the false default applies only when the
whole `log` section is absent (a `log` section without `enable` logs).
When it logs, it emits the timestamp-prefixed line to the diagnostic sink
and appends it to the configured file (default `/tmp/tygenie.log`), and a
file-write failure degrades to a sink-only line; the function is total, so
logging never raises. -/
theorem apilog_behavior (cfg : TyConfig) (fileWriteOk : Bool) (ts msg : String) :
    (msg = "" → ApiLog cfg fileWriteOk ts msg = .noop) ∧
    (cfg.logCfg = none → ApiLog cfg fileWriteOk ts msg = .noop) ∧
    (∀ lc, cfg.logCfg = some lc → lc.enable = some false →
      ApiLog cfg fileWriteOk ts msg = .noop) ∧
    (∀ lc, cfg.logCfg = some lc → lc.enable ≠ some false → msg ≠ "" →
      (ApiLog cfg true ts msg
          = .sinkAndFile ("[" ++ ts ++ "] " ++ msg) (lc.file.getD "/tmp/tygenie.log") ∧
        ApiLog cfg false ts msg = .sinkOnly ("[" ++ ts ++ "] " ++ msg))) := by
  refine ⟨fun h => by simp [ApiLog, h],
    fun h => by simp [ApiLog, h],
    fun lc h he => by simp [ApiLog, h, he],
    fun lc h he hm => ⟨by simp [ApiLog, h, he, hm], by simp [ApiLog, h, he, hm]⟩⟩

/-- C9 witness: with logging enabled and a configured file, a successful
write emits sink and file lines; a failing write degrades to sink-only. -/
theorem apilog_behavior_witness :
    ApiLog cfgLogOn true "t" "m" = .sinkAndFile "[t] m" "/var/log/ty.log" ∧
      ApiLog cfgLogOn false "t" "m" = .sinkOnly "[t] m" := by
  have h := (apilog_behavior cfgLogOn true "t" "m").2.2.2
    { enable := some true, file := some "/var/log/ty.log" } rfl (by decide) (by decide)
  exact ⟨h.1.trans (by decide), h.2.trans (by decide)⟩

/-- C10: each of the alert-mutating facade methods taking a parameters
mapping (`ack_alert`, `unack_alert`, `close_alert`, `add_note`,
`tag_alert`) assigns a `body` entry into the caller's mapping in place
before delegating that same mapping to the invoker, so a body-free caller
mapping does not come back unchanged; and because Python evaluates the
`dict = \x7b\x7d` default once, omitted-argument calls share one persistent
default dict, which holds the `body` of the previous call when the next
call begins. -/
theorem mutating_methods_insert_body (og : OpsGenie) (res : Resource)
    (note : String) (ps : Dict) :
    (Dict.get? (og.action_shape note ps) "body"
        = some (.vBody og.username og.source note)) ∧
    (Dict.get? (og.close_shape note ps) "body"
        = some (.vBody og.username ("TyGenie " ++ og.version) note)) ∧
    (∀ tags, Dict.get? (og.tag_shape note tags ps) "body"
        = some (.vTagBody og.username og.source note tags)) ∧
    (og.ack_alert res ps note = .ok (api_call res (og.action_shape note ps))) ∧
    (og.unack_alert res ps note = .ok (api_call res (og.action_shape note ps))) ∧
    (og.add_note res ps note = .ok (api_call res (og.action_shape note ps))) ∧
    (og.close_alert res ps note = .ok (api_call res (og.close_shape note ps))) ∧
    (∀ tags, og.tag_alert res ps tags note
        = .ok (api_call res (og.tag_shape note tags ps))) ∧
    (Dict.get? ps "body" = none → og.action_shape note ps ≠ ps) ∧
    (og.ackDefaultAfter [note] = [("body", .vBody og.username og.source note)]) ∧
    (∀ n2, og.ackDefaultAfter [note, n2]
        = [("body", .vBody og.username og.source n2)]) := by
  refine ⟨Dict.get?_set_self _ _ _, Dict.get?_set_self _ _ _,
    fun tags => Dict.get?_set_self _ _ _, rfl, rfl, rfl, rfl, fun tags => rfl,
    fun hnone heq => ?_, rfl, fun n2 => rfl⟩
  have hbody := Dict.get?_set_self ps "body" (Value.vBody og.username og.source note)
  rw [show Dict.set ps "body" (Value.vBody og.username og.source note)
      = og.action_shape note ps from rfl, heq, hnone] at hbody
  exact Option.noConfusion hbody

/-- C10 witness: on the empty (default) mapping, `ack_alert` shaping leaves
the mapping changed. -/
theorem mutating_methods_insert_body_witness :
    Dict.get? ([] : Dict) "body" = none ∧ og0.action_shape "hi" [] ≠ [] :=
  ⟨by decide,
    (mutating_methods_insert_body og0 res0 "hi" []).2.2.2.2.2.2.2.2.1 (by decide)⟩

end Tygenie
